import Mathlib

/-!
Verification of the parameter-sweep test harness (`scripts/loader.py` and
`scripts/test_cancer_types.py`) against its natural-language specification.

The two Python scripts are shallowly embedded below.  Pure computations
(enumeration of the parameter space, output-file naming, response
classification, accumulator updates) become Lean functions; the sequential
dispatch loops become folds threading an explicit run state together with an
`Option PyException` component modelling an uncaught Python exception that
aborts the loop.  External effects are modelled by explicit inputs:

* the directory listing of record files is a `List String` argument (already
  sorted, as `records.sort()` guarantees);
* `os.path.exists` at the start of a run is a predicate `exists0 : String →
  Bool`; files created during the run are additionally tracked in the run
  state, since a file written by an earlier unit is seen by a later
  existence check;
* the HTTP transport is an oracle mapping each unit of work to a
  `TransportResult` (timeout, connection error, or a response carrying a
  status code and a parsed JSON body);
* a parsed response body is a `Body`: `total?` is `none` when the JSON
  object has no `total` field (indexing it then raises `KeyError`), and
  `entries` is the list of identifier values found at
  `entry[i].resource.identifier[0].value`;
* `print` side effects are not tracked except where a claim mentions them
  (the usage message and the exit summary), in which case they appear as
  counters/flags in the result structure;
* `os.path.expanduser` is modelled as the identity on strings (tilde
  expansion is irrelevant to every claim); on Python `None` it raises
  `TypeError`, which the model preserves.

Record loading and request building (`json.load` of a record file and the
injection of the Parameters resource) are abstracted: records are treated as
well-formed opaque documents, since no claim concerns them.
-/

/-- Python exception classes that the embedded scripts can raise or catch. -/
inductive PyException where
  | keyError
  | indexError
  | nameError
  | typeError
  | unboundLocalError
  | connectionError
  deriving DecidableEq, Repr

/-- Decidable equality for `Except`, used to evaluate the embedded
fallible functions on concrete inputs. -/
instance {ε α : Type} [DecidableEq ε] [DecidableEq α] :
    DecidableEq (Except ε α) := fun x y =>
  match x, y with
  | .error a, .error b => decidable_of_iff (a = b) (by simp)
  | .error _, .ok _ => isFalse (by simp)
  | .ok _, .error _ => isFalse (by simp)
  | .ok a, .ok b => decidable_of_iff (a = b) (by simp)

/-- Parsed JSON body of a service response.  `total?` is `none` when the
`total` field is absent; `entries` lists the identifier value of each match
record, in response order. -/
structure Body where
  total? : Option Int
  entries : List String
  deriving DecidableEq, Repr

/-- Result of one `requests.post` call: a timeout, a connection error, or a
received response with its HTTP status code and parsed body. -/
inductive TransportResult where
  | timeout
  | connError
  | response (status : Nat) (body : Body)
  deriving DecidableEq, Repr

namespace Loader

/-- Fixed list of zip codes swept by `loader.py`: the 29-element list when
`--extensive` is given, else the single default `"75001"`. -/
def zipCodes (extensive : Bool) : List String :=
  if extensive then
    ["25438", "26506", "26330", "26101", "25401", "26003", "26038", "24740",
     "15401", "26726", "90211", "55455", "55101", "72205", "26506", "19104",
     "92868", "60637", "59102", "85364", "33606", "80045", "06102", "31202",
     "31405", "31904", "31501", "30303", "75390"]
  else ["75001"]

/-- Fixed list of travel radii swept by `loader.py`. -/
def radii (extensive : Bool) : List String :=
  if extensive then ["20", "50", "100"] else ["20"]

/-- Ordered sequence of parameter combinations produced by the nested loops
`for zipCode in zipCodes: for radius in radii:` — outer loop over locations,
inner loop over radii. -/
def combos (extensive : Bool) : List (String × String) :=
  (zipCodes extensive).flatMap fun z => (radii extensive).map fun r => (z, r)

/-- Path separator (`os.sep`). -/
def sep : String := "/"

/-- Record name: `record[:-5]` strips the `.json` suffix from the file
name. -/
def recordName (record : String) : String := record.dropRight 5

/-- Deterministic output path
`<resultsDir><os.sep><recordName>_r<radius>_z<zipCode>.csv`. -/
def fileName (resultsDir recName radius zipCode : String) : String :=
  resultsDir ++ sep ++ recName ++ "_r" ++ radius ++ "_z" ++ zipCode ++ ".csv"

/-- Completion-tracker decision at line 106 of `loader.py`: a unit is
skipped iff the `--skip` flag is set and the output file already exists. -/
def shouldSkip (skipEnabled fileExists : Bool) : Bool :=
  skipEnabled && fileExists

/-- Identity of one unit of work: the record name together with its
parameter combination.  These are exactly the fields of the dictionary
appended to `errors` on a failure. -/
structure UnitId where
  record : String
  radius : String
  zipCode : String
  deriving DecidableEq, Repr

/-- Ordered sequence of units of work visited by the triple loop in
`loader.py` (outer zip code, then radius, then record). -/
def units (extensive : Bool) (records : List String) : List UnitId :=
  (zipCodes extensive).flatMap fun z =>
    (radii extensive).flatMap fun r =>
      records.map fun rec => ⟨recordName rec, r, z⟩

/-- Mutable state of one loader run: the `total_runs` counter, the `errors`
list, the CSV files written so far (path together with its rows, one row per
identifier, single column, no header — `csv.writer` writes exactly the rows
it is given), and the trace of units actually POSTed to the service. -/
structure RunState where
  totalRuns : Nat := 0
  errors : List UnitId := []
  files : List (String × List String) := []
  dispatchLog : List UnitId := []
  deriving DecidableEq, Repr

/-- Classification of a received response by lines 134–149 of `loader.py`.
On status 200 the body's `total` field is indexed directly, so an absent
field raises `KeyError`; `total > 0` writes one CSV row per element of the
response's `entry` array; otherwise nothing is written.  A non-200 status is
logged as an error. -/
inductive LoaderOutcome where
  | written (rows : List String)
  | successEmpty
  | serviceError (status : Nat)
  deriving DecidableEq, Repr

/-- Response handling of a received response in `loader.py` (lines
134–149). -/
def classifyResponse (status : Nat) (body : Body) :
    Except PyException LoaderOutcome :=
  if status = 200 then
    match body.total? with
    | none => .error .keyError
    | some t => if t > 0 then .ok (.written body.entries) else .ok .successEmpty
  else .ok (.serviceError status)

/-- Existence check `exists(fileName)` at line 104: a file exists if it was
present when the run started or if an earlier unit of this run wrote it. -/
def fileExistsNow (exists0 : String → Bool) (st : RunState) (fname : String) :
    Bool :=
  exists0 fname || st.files.any fun p => p.1 = fname

/-- One iteration of the loader's inner loop body (lines 96–149): increment
`total_runs`, check the completion tracker, then dispatch and handle the
outcome.  Returns the updated state and `some e` when an uncaught Python
exception aborts the run. -/
def stepUnit (resultsDir : String) (skp : Bool) (exists0 : String → Bool)
    (transport : UnitId → TransportResult) (st : RunState) (u : UnitId) :
    RunState × Option PyException :=
  let st := { st with totalRuns := st.totalRuns + 1 }
  let fname := fileName resultsDir u.record u.radius u.zipCode
  if shouldSkip skp (fileExistsNow exists0 st fname) then (st, none)
  else
    let st := { st with dispatchLog := st.dispatchLog ++ [u] }
    match transport u with
    | .timeout => ({ st with errors := st.errors ++ [u] }, none)
    | .connError => ({ st with errors := st.errors ++ [u] }, none)
    | .response status body =>
      match classifyResponse status body with
      | .error e => (st, some e)
      | .ok (.written rows) =>
          ({ st with files := st.files ++ [(fname, rows)] }, none)
      | .ok .successEmpty => (st, none)
      | .ok (.serviceError _) => ({ st with errors := st.errors ++ [u] }, none)

/-- Sequential dispatch loop over the enumerated units; stops at the first
uncaught exception, keeping the partial state. -/
def runAux (resultsDir : String) (skp : Bool) (exists0 : String → Bool)
    (transport : UnitId → TransportResult) :
    List UnitId → RunState → RunState × Option PyException
  | [], st => (st, none)
  | u :: us, st =>
    match stepUnit resultsDir skp exists0 transport st u with
    | (st', none) => runAux resultsDir skp exists0 transport us st'
    | (st', some e) => (st', some e)

/-- Complete loader sweep: the triple loop of `loader.py` starting from the
empty run state. -/
def loaderRun (resultsDir : String) (extensive skp : Bool)
    (records : List String) (exists0 : String → Bool)
    (transport : UnitId → TransportResult) : RunState × Option PyException :=
  runAux resultsDir skp exists0 transport (units extensive records) {}

/-- Observable outcome of one invocation of `loader.py`: the process exit
status, the number of times the `exit_handler` summary ran at shutdown, and
the final run state. -/
structure ScriptResult where
  exitCode : Nat
  summaryPrints : Nat
  st : RunState
  deriving DecidableEq, Repr

/-- Top-level control flow of `loader.py`.  When the results-directory
argument is missing or empty the script prints a usage message and calls
`sys.exit()` with no argument, which terminates the process with status 0;
`atexit.register(exit_handler, …)` on line 163 runs only after the sweep
loop completes, so the summary hook is registered (and hence fires, exactly
once) only when the loop finishes without an uncaught exception.  An
uncaught exception terminates the process with status 1 and no registered
hook. -/
def loaderScript (resultDirArg : Option String) (extensive skp : Bool)
    (records : List String) (exists0 : String → Bool)
    (transport : UnitId → TransportResult) : ScriptResult :=
  match resultDirArg with
  | none => ⟨0, 0, {}⟩
  | some rd =>
    if rd.length = 0 then ⟨0, 0, {}⟩
    else
      match loaderRun rd extensive skp records exists0 transport with
      | (st, some _) => ⟨1, 0, st⟩
      | (st, none) => ⟨0, 1, st⟩

end Loader

namespace Sweep

/-- One entry of the application's `cancerTypes.json` file: the coding
triple plus the `cancerType` membership list used by the filter. -/
structure CancerEntry where
  code : String
  display : String
  system : String
  cancerType : List String
  deriving DecidableEq, Repr

/-- Filter predicate `filter_cancer_type` of `test_cancer_types.py`:
`cancer_type in entry["cancerType"]`. -/
def filterCancerType (cancerType : String) (entry : CancerEntry) : Bool :=
  cancerType ∈ entry.cancerType

/-- Row appended to a status bucket: code, display, system, and the
reported total (defaulting to 0 when the response body has no `total`
field). -/
structure Row where
  code : String
  display : String
  system : String
  total : Int
  deriving DecidableEq, Repr

/-- Update of the `results` dictionary (lines 138–143): create the bucket
for an unseen status (Python dicts preserve insertion order, so the bucket
list is an association list in first-seen order), then append the row to
that bucket. -/
def insertResult : List (Nat × List Row) → Nat → Row → List (Nat × List Row)
  | [], status, row => [(status, [row])]
  | (k, rows) :: rest, status, row =>
    if k = status then (k, rows ++ [row]) :: rest
    else (k, rows) :: insertResult rest status row

/-- Mutable state of one condition sweep: the status-keyed `results`
buckets, the `timeouts` list (each element the `[code, display, system]`
triple appended on a timeout), and the trace of entries actually POSTed. -/
structure SweepState where
  results : List (Nat × List Row) := []
  timeouts : List (List String) := []
  dispatchLog : List CancerEntry := []
  deriving DecidableEq, Repr

/-- One iteration of the sweep loop (lines 127–143).  `requests.Timeout` is
caught and recorded; `requests.ConnectionError` has no handler and
propagates; a received response is bucketed by status with
`researchStudies["total"] if "total" in researchStudies else 0`. -/
def sweepStep (transport : CancerEntry → TransportResult) (st : SweepState)
    (e : CancerEntry) : SweepState × Option PyException :=
  let st := { st with dispatchLog := st.dispatchLog ++ [e] }
  match transport e with
  | .timeout =>
      ({ st with timeouts := st.timeouts ++ [[e.code, e.display, e.system]] }, none)
  | .connError => (st, some .connectionError)
  | .response status body =>
      let row : Row := ⟨e.code, e.display, e.system, body.total?.getD 0⟩
      ({ st with results := insertResult st.results status row }, none)

/-- Sequential sweep loop over the filtered entries; stops at the first
uncaught exception, keeping the partial state. -/
def sweepLoop (transport : CancerEntry → TransportResult) :
    List CancerEntry → SweepState → SweepState × Option PyException
  | [], st => (st, none)
  | e :: es, st =>
    match sweepStep transport st e with
    | (st', none) => sweepLoop transport es st'
    | (st', some exc) => (st', some exc)

/-- Complete dispatch phase of the sweep: filter the cancer-types data,
then loop, starting from the empty state. -/
def sweepRun (cancerType : String) (data : List CancerEntry)
    (transport : CancerEntry → TransportResult) :
    SweepState × Option PyException :=
  sweepLoop transport (data.filter (filterCancerType cancerType)) {}

/-- Value a cell of the workbook can hold in the model: a plain string, a
whole `[code, display, system]` triple (what the buggy timeouts loop
passes to `worksheet.write`), or an integer. -/
inductive CellVal where
  | str (s : String)
  | strs (l : List String)
  | int (n : Int)
  deriving DecidableEq, Repr

/-- A written workbook cell: row index, column index, value. -/
abbrev SheetCell : Type := Nat × Nat × CellVal

/-- Last value of the loop variable `index` after the status-sheet loops
(lines 155–165): `for status, studies in results.items(): for index, entry
in enumerate(studies)` leaves `index` bound to `len(studies) - 1` for the
last bucket with a nonempty list, and unbound (`none`) when no bucket
iterated. -/
def lastIndex (results : List (Nat × List Row)) : Option Nat :=
  results.foldl
    (fun acc p => if p.2.length = 0 then acc else some (p.2.length - 1)) none

/-- Cells of the `Timeouts` sheet as lines 167–175 actually write them.
The sheet exists iff `timeouts` is nonempty.  The loop body reads the stale
`index` from the results loop (raising `NameError` when it was never bound)
and indexes `timeouts[0]`, `timeouts[1]`, `timeouts[2]` — the first three
timeout triples, not the current entry's fields — raising `IndexError` when
fewer than three timeouts occurred; every iteration writes to the same row
`index + 1`. -/
def timeoutsSheet (idx? : Option Nat) (timeouts : List (List String)) :
    Except PyException (Option (List SheetCell)) :=
  if timeouts.length = 0 then .ok none
  else
    let header : List SheetCell :=
      [(0, 0, .str "Code"), (0, 1, .str "Display"), (0, 2, .str "System")]
    match idx? with
    | none => .error .nameError
    | some i =>
      match timeouts[0]?, timeouts[1]?, timeouts[2]? with
      | some t0, some t1, some t2 =>
          .ok (some (header ++ timeouts.flatMap fun _ =>
            [(i + 1, 0, .strs t0), (i + 1, 1, .strs t1), (i + 1, 2, .strs t2)]))
      | _, _, _ => .error .indexError

/-- Modelled from the spec: the `Timeouts` sheet §6 describes — present iff
any timeouts occurred, one row per timed-out unit carrying that unit's
code, display and system values under the `Code, Display, System` header.
(The workbook-writing code itself is in `src/`, so this definition exists
only to state what the spec expects of it.) -/
def specTimeoutsSheet (timeouts : List (List String)) :
    Option (List SheetCell) :=
  if timeouts.length = 0 then none
  else
    some ([((0 : Nat), (0 : Nat), CellVal.str "Code"), (0, 1, .str "Display"),
           (0, 2, .str "System")] ++
      (List.range timeouts.length).flatMap fun i =>
        [(i + 1, 0, .str ((timeouts.getD i []).getD 0 "")),
         (i + 1, 1, .str ((timeouts.getD i []).getD 1 "")),
         (i + 1, 2, .str ((timeouts.getD i []).getD 2 ""))])

/-- Truthiness of an optional string argument under Python's `if x:` test:
`None` and the empty string are falsy. -/
def pyTruthy : Option String → Bool
  | none => false
  | some s => !s.isEmpty

/-- Observable outcome of one invocation of `main` in
`test_cancer_types.py`. -/
structure MainResult where
  exc? : Option PyException
  usagePrinted : Bool
  st : SweepState
  deriving DecidableEq, Repr

/-- Pre-dispatch control flow of `main` (lines 101–127) followed by the
dispatch loop.  Line 107 runs `os.path.expanduser(args.directory)`, which
raises `TypeError` when no `-d` argument was given (`expanduser(None)`).
Because `main` assigns `path_to_cancer_types` inside `if args.file:`,
Python treats the name as local throughout `main`, shadowing the
module-level default; reading it on line 115 when the conditional
assignment did not execute raises `UnboundLocalError` — so the usage
message on line 116 is reachable only if the local holds a falsy value,
which the truthiness guard on line 109 makes impossible. -/
def sweepMain (fileArg directoryArg : Option String) (data : List CancerEntry)
    (cancerType : String) (transport : CancerEntry → TransportResult) :
    MainResult :=
  match directoryArg with
  | none => ⟨some .typeError, false, {}⟩
  | some _ =>
    let pathLocal? : Option String := if pyTruthy fileArg then fileArg else none
    match pathLocal? with
    | none => ⟨some .unboundLocalError, false, {}⟩
    | some p =>
      if p.isEmpty then ⟨none, true, {}⟩
      else
        match sweepRun cancerType data transport with
        | (st, e?) => ⟨e?, false, st⟩

/-- Total number of rows across all status buckets of the accumulator. -/
def bucketsSum (results : List (Nat × List Row)) : Nat :=
  (results.map fun p => p.2.length).sum

end Sweep

/-- Accumulator state of the one-entry timeout sweep used as the C3
witness input. -/
def sweepWitnessState : Sweep.SweepState :=
  (Sweep.sweepRun "breast" [⟨"c", "d", "s", ["breast"]⟩]
    (fun _ => .timeout)).1

/-- Run state of the one-record narrow timeout loader run used as the C3
witness input. -/
def loaderWitnessState : Loader.RunState :=
  (Loader.loaderRun "res" false false ["p.json"] (fun _ => false)
    (fun _ => .timeout)).1


namespace Loader

theorem stepUnit_totalRuns (rd : String) (skp : Bool) (ex0 : String → Bool)
    (tr : UnitId → TransportResult) (st : RunState) (u : UnitId) :
    (stepUnit rd skp ex0 tr st u).1.totalRuns = st.totalRuns + 1 := by
  simp only [stepUnit]
  split
  · rfl
  · split <;> try rfl
    split <;> rfl

theorem stepUnit_skip (rd : String) (skp : Bool) (ex0 : String → Bool)
    (tr : UnitId → TransportResult) (st : RunState) (u : UnitId)
    (h : shouldSkip skp (fileExistsNow ex0 st
      (fileName rd u.record u.radius u.zipCode)) = true) :
    stepUnit rd skp ex0 tr st u = ({ st with totalRuns := st.totalRuns + 1 }, none) := by
  simp only [stepUnit]
  rw [if_pos]
  simpa [fileExistsNow] using h

theorem stepUnit_recoverable (rd : String) (skp : Bool) (ex0 : String → Bool)
    (tr : UnitId → TransportResult) (st : RunState) (u : UnitId)
    (hrec : tr u = .timeout ∨ tr u = .connError)
    (h : shouldSkip skp (fileExistsNow ex0 st
      (fileName rd u.record u.radius u.zipCode)) = false) :
    stepUnit rd skp ex0 tr st u =
      ({ st with totalRuns := st.totalRuns + 1,
                 dispatchLog := st.dispatchLog ++ [u],
                 errors := st.errors ++ [u] }, none) := by
  simp only [stepUnit]
  rw [if_neg (by simp [fileExistsNow] at h ⊢; simp [h])]
  rcases hrec with h' | h' <;> rw [h']

theorem runAux_recoverable (rd : String) (skp : Bool) (ex0 : String → Bool)
    (tr : UnitId → TransportResult)
    (hrec : ∀ u, tr u = .timeout ∨ tr u = .connError) :
    ∀ (us : List UnitId) (st : RunState),
      (runAux rd skp ex0 tr us st).2 = none ∧
      ∃ d : List UnitId,
        (runAux rd skp ex0 tr us st).1.dispatchLog = st.dispatchLog ++ d ∧
        (runAux rd skp ex0 tr us st).1.errors = st.errors ++ d := by
  intro us
  induction us with
  | nil => intro st; exact ⟨rfl, [], by simp [runAux]⟩
  | cons u us ih =>
    intro st
    by_cases hs : shouldSkip skp (fileExistsNow ex0 st
        (fileName rd u.record u.radius u.zipCode)) = true
    · have hstep := stepUnit_skip rd skp ex0 tr st u hs
      simp only [runAux, hstep]
      exact ih _
    · have hstep := stepUnit_recoverable rd skp ex0 tr st u (hrec u)
        (Bool.not_eq_true _ ▸ hs)
      simp only [runAux, hstep]
      obtain ⟨h1, d, h2, h3⟩ := ih { st with totalRuns := st.totalRuns + 1, dispatchLog := st.dispatchLog ++ [u], errors := st.errors ++ [u] }
      refine ⟨h1, u :: d, ?_, ?_⟩
      · rw [h2]; simp
      · rw [h3]; simp

end Loader

namespace Loader

theorem stepUnit_dispatchLog_cases (rd : String) (skp : Bool)
    (ex0 : String → Bool) (tr : UnitId → TransportResult) (st : RunState)
    (u : UnitId) :
    (stepUnit rd skp ex0 tr st u).1.dispatchLog = st.dispatchLog ∨
    (stepUnit rd skp ex0 tr st u).1.dispatchLog = st.dispatchLog ++ [u] := by
  simp only [stepUnit]
  split
  · exact Or.inl rfl
  · split <;> try exact Or.inr rfl
    split <;> exact Or.inr rfl

theorem stepUnit_noskip (rd : String) (ex0 : String → Bool)
    (tr : UnitId → TransportResult) (st : RunState) (u : UnitId) :
    (stepUnit rd false ex0 tr st u).1.dispatchLog = st.dispatchLog ++ [u] := by
  simp only [stepUnit, shouldSkip, Bool.false_and, if_neg Bool.false_ne_true]
  split <;> try rfl
  split <;> rfl

theorem runAux_totalRuns (rd : String) (skp : Bool) (ex0 : String → Bool)
    (tr : UnitId → TransportResult) :
    ∀ (us : List UnitId) (st st' : RunState),
      runAux rd skp ex0 tr us st = (st', none) →
      st'.totalRuns = st.totalRuns + us.length := by
  intro us
  induction us with
  | nil => intro st st' h; simp only [runAux, Prod.mk.injEq] at h; simp [← h.1]
  | cons u us ih =>
    intro st st' h
    simp only [runAux] at h
    rcases hstep : stepUnit rd skp ex0 tr st u with ⟨st1, e?⟩
    rw [hstep] at h
    cases e? with
    | none =>
      have h1 := ih st1 st' h
      have h2 : st1.totalRuns = st.totalRuns + 1 := by
        simpa [hstep] using stepUnit_totalRuns rd skp ex0 tr st u
      simp only [List.length_cons]
      omega
    | some e => simp at h

theorem runAux_noskip_dispatchLog (rd : String) (ex0 : String → Bool)
    (tr : UnitId → TransportResult) :
    ∀ (us : List UnitId) (st st' : RunState),
      runAux rd false ex0 tr us st = (st', none) →
      st'.dispatchLog = st.dispatchLog ++ us := by
  intro us
  induction us with
  | nil => intro st st' h; simp only [runAux, Prod.mk.injEq] at h; simp [← h.1]
  | cons u us ih =>
    intro st st' h
    simp only [runAux] at h
    rcases hstep : stepUnit rd false ex0 tr st u with ⟨st1, e?⟩
    rw [hstep] at h
    cases e? with
    | none =>
      have h1 := ih st1 st' h
      have h2 : st1.dispatchLog = st.dispatchLog ++ [u] := by
        simpa [hstep] using stepUnit_noskip rd ex0 tr st u
      rw [h1, h2]
      simp
    | some e => simp at h

theorem runAux_dispatchLog_len_le (rd : String) (skp : Bool)
    (ex0 : String → Bool) (tr : UnitId → TransportResult) :
    ∀ (us : List UnitId) (st st' : RunState),
      runAux rd skp ex0 tr us st = (st', none) →
      st'.dispatchLog.length ≤ st.dispatchLog.length + us.length := by
  intro us
  induction us with
  | nil => intro st st' h; simp only [runAux, Prod.mk.injEq] at h; simp [← h.1]
  | cons u us ih =>
    intro st st' h
    simp only [runAux] at h
    rcases hstep : stepUnit rd skp ex0 tr st u with ⟨st1, e?⟩
    rw [hstep] at h
    cases e? with
    | none =>
      have h1 := ih st1 st' h
      have h2 : st1.dispatchLog = st.dispatchLog ∨ st1.dispatchLog = st.dispatchLog ++ [u] := by
        simpa [hstep] using stepUnit_dispatchLog_cases rd skp ex0 tr st u
      rcases h2 with h2 | h2 <;> rw [h2] at h1 <;> simp at h1 ⊢ <;> omega
    | some e => simp at h

end Loader

namespace Sweep

theorem bucketsSum_insertResult (rs : List (Nat × List Row)) (s : Nat)
    (r : Row) : bucketsSum (insertResult rs s r) = bucketsSum rs + 1 := by
  induction rs with
  | nil => simp [insertResult, bucketsSum]
  | cons p rest ih =>
    rcases p with ⟨k, rows⟩
    by_cases h : k = s
    · simp [insertResult, h, bucketsSum]
      omega
    · simp [insertResult, h, bucketsSum] at ih ⊢
      omega

theorem sweepLoop_count (tr : CancerEntry → TransportResult) :
    ∀ (es : List CancerEntry) (st st' : SweepState),
      sweepLoop tr es st = (st', none) →
      bucketsSum st'.results + st'.timeouts.length + st.dispatchLog.length =
        bucketsSum st.results + st.timeouts.length + st'.dispatchLog.length ∧
      st'.dispatchLog.length = st.dispatchLog.length + es.length := by
  intro es
  induction es with
  | nil =>
    intro st st' h
    simp only [sweepLoop, Prod.mk.injEq] at h
    simp [← h.1]
  | cons e es ih =>
    intro st st' h
    simp only [sweepLoop] at h
    rcases hstep : sweepStep tr st e with ⟨st1, e?⟩
    rw [hstep] at h
    cases e? with
    | none =>
      obtain ⟨h1, h2⟩ := ih st1 st' h
      have hstep' : bucketsSum st1.results + st1.timeouts.length =
          bucketsSum st.results + st.timeouts.length + 1 ∧
          st1.dispatchLog = st.dispatchLog ++ [e] := by
        simp only [sweepStep] at hstep
        rcases htr : tr e with _ | _ | ⟨status, body⟩ <;> rw [htr] at hstep <;>
          simp only [Prod.mk.injEq] at hstep
        · constructor
          · rw [← hstep.1]
            simp
            omega
          · rw [← hstep.1]
        · exact absurd hstep.2 (by simp)
        · constructor
          · rw [← hstep.1]
            simp [bucketsSum_insertResult]
            omega
          · rw [← hstep.1]
      rw [hstep'.2] at h1 h2
      have hm := hstep'.1
      simp [List.length_append] at h1 h2 ⊢
      exact ⟨by omega, by omega⟩
    | some exc => simp at h

end Sweep


/-- Index computation for the cross product built by a flatMap of maps: the
element at position `i * |ys| + j` is the pair of the `i`-th outer and
`j`-th inner element, witnessing the fixed nested iteration order. -/
theorem flatMap_pairs_getElem {α β : Type} (xs : List α) (ys : List β)
    (i j : Nat) (hj : j < ys.length) (hi : i < xs.length) :
    (xs.flatMap fun x => ys.map fun y => (x, y))[i * ys.length + j]? =
      some (xs[i], ys[j]) := by
  induction xs generalizing i with
  | nil => exact absurd hi (Nat.not_lt_zero i)
  | cons x xs ih =>
    rw [List.flatMap_cons]
    cases i with
    | zero =>
      rw [Nat.zero_mul, Nat.zero_add, List.getElem?_append]
      simp [hj, List.getElem?_eq_getElem]
    | succ k =>
      rw [List.getElem?_append]
      have hlen : ¬ ((k + 1) * ys.length + j < (ys.map fun y => (x, y)).length) := by
        simp [Nat.succ_mul]
        omega
      rw [if_neg hlen]
      have harith : (k + 1) * ys.length + j - (ys.map fun y => (x, y)).length =
          k * ys.length + j := by
        simp [Nat.succ_mul]
        omega
      rw [harith]
      have := ih k (Nat.lt_of_succ_lt_succ hi)
      simpa using this

namespace Loader

theorem stepUnit_dispatch (rd : String) (skp : Bool) (ex0 : String → Bool)
    (tr : UnitId → TransportResult) (st : RunState) (u : UnitId)
    (h : shouldSkip skp (fileExistsNow ex0 st
      (fileName rd u.record u.radius u.zipCode)) = false) :
    (stepUnit rd skp ex0 tr st u).1.dispatchLog = st.dispatchLog ++ [u] := by
  simp only [stepUnit]
  rw [if_neg]
  · split <;> try rfl
    split <;> rfl
  · simp [fileExistsNow] at h ⊢
    simp [h]

theorem loaderRun_recoverable (rd : String) (ext skp : Bool)
    (records : List String) (ex0 : String → Bool)
    (tr : UnitId → TransportResult)
    (hrec : ∀ u, tr u = .timeout ∨ tr u = .connError) :
    (loaderRun rd ext skp records ex0 tr).2 = none ∧
    (loaderRun rd ext skp records ex0 tr).1.errors =
      (loaderRun rd ext skp records ex0 tr).1.dispatchLog := by
  obtain ⟨h1, d, h2, h3⟩ :=
    runAux_recoverable rd skp ex0 tr hrec (units ext records) {}
  simp only [loaderRun]
  exact ⟨h1, by rw [h2, h3]⟩

end Loader

namespace Sweep

theorem sweepRun_count (ct : String) (data : List CancerEntry)
    (str : CancerEntry → TransportResult) (sst : SweepState)
    (h : sweepRun ct data str = (sst, none)) :
    bucketsSum sst.results + sst.timeouts.length = sst.dispatchLog.length ∧
    sst.dispatchLog.length = (data.filter (filterCancerType ct)).length := by
  obtain ⟨h1, h2⟩ := sweepLoop_count str (data.filter (filterCancerType ct)) {} sst h
  constructor
  · have hz : bucketsSum ({} : SweepState).results = 0 := rfl
    simp [hz] at h1
    simpa using h1
  · simpa using h2

end Sweep

/-- C1 counterexample: the broad-mode combination ("26506", "20") occurs at
both index 3 and index 42 of the enumerated sequence, because the location
list itself lists "26506" twice, so the enumeration is not duplicate-free. -/
theorem broad_combos_contain_duplicate :
    (Loader.combos true)[3]? = some ("26506", "20") ∧
    (Loader.combos true)[42]? = some ("26506", "20") ∧
    (3 : Nat) ≠ 42 ∧
    ¬ (Loader.combos true).Nodup := by decide

/-- C1 (amended): broad mode yields exactly (length of the location list) ×
(length of the radius list) combinations and narrow mode exactly one, in
the fixed nested order outer=location, inner=radius; narrow mode has no
duplicates, but broad mode does, since the location list repeats
"26506". -/
theorem enumerator_counts_and_order (e : Bool) (i j : Nat)
    (hi : i < (Loader.zipCodes e).length) (hj : j < (Loader.radii e).length) :
    (Loader.combos e).length =
      (Loader.zipCodes e).length * (Loader.radii e).length ∧
    Loader.combos false = [("75001", "20")] ∧
    (Loader.combos false).Nodup ∧
    ¬ (Loader.combos true).Nodup ∧
    (Loader.combos e)[i * (Loader.radii e).length + j]? =
      some ((Loader.zipCodes e)[i], (Loader.radii e)[j]) := by
  refine ⟨?_, by decide, by decide, by decide, ?_⟩
  · cases e <;> decide
  · exact flatMap_pairs_getElem (Loader.zipCodes e) (Loader.radii e) i j hj hi

/-- Witness for C1's amended theorem at broad mode, outer index 1, inner
index 0. -/
theorem enumerator_counts_and_order_witness :
    ((Loader.combos true).length =
      (Loader.zipCodes true).length * (Loader.radii true).length ∧
    Loader.combos false = [("75001", "20")] ∧
    (Loader.combos false).Nodup ∧
    ¬ (Loader.combos true).Nodup ∧
    (Loader.combos true)[1 * (Loader.radii true).length + 0]? =
      some ((Loader.zipCodes true)[1], (Loader.radii true)[0])) ∧
    (Loader.combos true)[3]? = some ("26506", "20") :=
  ⟨enumerator_counts_and_order true 1 0 (by decide) (by decide), by decide⟩

/-- C7: with no results-directory argument (and likewise with an empty
one), `loader.py` prints the usage message and calls `sys.exit()` with no
argument, so the process terminates with exit status 0 — not a non-zero
status — and no unit is dispatched. -/
theorem missing_results_dir_exits_with_code_zero :
    (Loader.loaderScript none false false ["p.json"] (fun _ => false)
      (fun _ => .timeout)).exitCode = 0 ∧
    (Loader.loaderScript none false false ["p.json"] (fun _ => false)
      (fun _ => .timeout)).st.dispatchLog = [] ∧
    (Loader.loaderScript (some "") false false ["p.json"] (fun _ => false)
      (fun _ => .timeout)).exitCode = 0 := by decide

/-- C8: evaluating the Timeouts-sheet writer of `test_cancer_types.py`.
With exactly one timed-out unit it raises `IndexError` (the loop body
indexes `timeouts[1]`), where the spec expects a sheet with one row for
that unit; with an empty results dictionary it raises `NameError` (stale
loop variable `index` never bound); the present-iff-any-timeouts part is
honoured (no sheet when no timeouts); and with three timeouts the produced
cells differ from the one-row-per-unit sheet the spec describes. -/
theorem timeouts_sheet_write_raises :
    Sweep.timeoutsSheet (some 0) [["c1", "d1", "s1"]] = .error .indexError ∧
    Sweep.specTimeoutsSheet [["c1", "d1", "s1"]] =
      some [(0, 0, .str "Code"), (0, 1, .str "Display"), (0, 2, .str "System"),
            (1, 0, .str "c1"), (1, 1, .str "d1"), (1, 2, .str "s1")] ∧
    Sweep.timeoutsSheet (Sweep.lastIndex []) [["c1", "d1", "s1"]] =
      .error .nameError ∧
    Sweep.timeoutsSheet (some 0) [] = .ok none ∧
    Sweep.specTimeoutsSheet [] = none ∧
    Sweep.timeoutsSheet (some 1) [["a", "b", "c"], ["d", "e", "f"], ["g", "h", "i"]] ≠
      .ok (Sweep.specTimeoutsSheet [["a", "b", "c"], ["d", "e", "f"], ["g", "h", "i"]]) :=
  ⟨by decide, by decide, by decide, by decide, by decide, by decide⟩

/-- C9: the `exit_handler` summary is registered with `atexit` only on line
163, after the sweep loop, so it never fires on the pre-flight usage exit
nor when a mid-run uncaught exception terminates the process; it fires
exactly once only when the loop completes, including the no-units case
(where it just prints zero counts). -/
theorem exit_summary_hook_missed_on_early_exit :
    (Loader.loaderScript none false false ["p.json"] (fun _ => false)
      (fun _ => .timeout)).summaryPrints = 0 ∧
    (Loader.loaderScript (some "res") false false ["p.json"] (fun _ => false)
      (fun _ => .response 200 ⟨none, []⟩)).summaryPrints = 0 ∧
    (Loader.loaderScript (some "res") false false ["p.json"] (fun _ => false)
      (fun _ => .timeout)).summaryPrints = 1 ∧
    (Loader.loaderScript (some "res") false false [] (fun _ => false)
      (fun _ => .timeout)).summaryPrints = 1 := by decide

/-- C2 counterexample: in condition-sweep mode a connection failure is not
caught (only `requests.Timeout` has a handler), so the exception escapes
the dispatch loop and aborts the run. -/
theorem sweep_connection_error_escapes :
    (Sweep.sweepRun "breast"
      [⟨"254837009", "Malignant neoplasm of breast", "http://snomed.info/sct",
        ["breast"]⟩]
      (fun _ => .connError)).2 = some .connectionError := by decide

/-- C2 (amended): in loader mode a transport timeout or connection failure
never raises past the Dispatch Engine — it is recorded in the failure list
exactly once and processing continues (with uniformly recoverable
transports the whole run completes, with exactly one failure record per
dispatched unit).  In condition-sweep mode this holds for timeouts only:
a connection failure raises past the engine. -/
theorem recoverable_failures_contained_amended
    (rd : String) (skp : Bool) (ex0 : String → Bool)
    (tr : Loader.UnitId → TransportResult) (st : Loader.RunState)
    (u : Loader.UnitId) (sst : Sweep.SweepState) (en : Sweep.CancerEntry)
    (str : Sweep.CancerEntry → TransportResult)
    (hrec : ∀ v, tr v = .timeout ∨ tr v = .connError)
    (hns : Loader.shouldSkip skp (Loader.fileExistsNow ex0 st
      (Loader.fileName rd u.record u.radius u.zipCode)) = false)
    (hto : str en = .timeout) :
    (Loader.stepUnit rd skp ex0 tr st u).2 = none ∧
    (Loader.stepUnit rd skp ex0 tr st u).1.errors = st.errors ++ [u] ∧
    (∀ (ext : Bool) (records : List String),
      (Loader.loaderRun rd ext skp records ex0 tr).2 = none ∧
      (Loader.loaderRun rd ext skp records ex0 tr).1.errors =
        (Loader.loaderRun rd ext skp records ex0 tr).1.dispatchLog) ∧
    (Sweep.sweepStep str sst en).2 = none ∧
    (Sweep.sweepStep str sst en).1.timeouts =
      sst.timeouts ++ [[en.code, en.display, en.system]] ∧
    (∀ (v : Sweep.CancerEntry) (sst2 : Sweep.SweepState),
      str v = .connError →
      (Sweep.sweepStep str sst2 v).2 = some .connectionError) := by
  have hstep := Loader.stepUnit_recoverable rd skp ex0 tr st u (hrec u) hns
  refine ⟨by rw [hstep], by rw [hstep], ?_, ?_, ?_, ?_⟩
  · intro ext records
    exact Loader.loaderRun_recoverable rd ext skp records ex0 tr hrec
  · simp only [Sweep.sweepStep, hto]
  · simp only [Sweep.sweepStep, hto]
  · intro v sst2 hv
    simp only [Sweep.sweepStep, hv]

/-- Witness for C2's amended theorem at a concrete unit, entry and
timeout-everywhere transports. -/
theorem recoverable_failures_contained_witness :
    (Loader.stepUnit "res" false (fun _ => false) (fun _ => .timeout) {}
      ⟨"p", "20", "75001"⟩).2 = none ∧
    (Loader.stepUnit "res" false (fun _ => false) (fun _ => .timeout) {}
      ⟨"p", "20", "75001"⟩).1.errors =
      Loader.RunState.errors {} ++ [⟨"p", "20", "75001"⟩] ∧
    (∀ (ext : Bool) (records : List String),
      (Loader.loaderRun "res" ext false records (fun _ => false)
        (fun _ => .timeout)).2 = none ∧
      (Loader.loaderRun "res" ext false records (fun _ => false)
        (fun _ => .timeout)).1.errors =
        (Loader.loaderRun "res" ext false records (fun _ => false)
          (fun _ => .timeout)).1.dispatchLog) ∧
    (Sweep.sweepStep (fun _ => .timeout) {}
      ⟨"c", "d", "s", ["breast"]⟩).2 = none ∧
    (Sweep.sweepStep (fun _ => .timeout) {}
      ⟨"c", "d", "s", ["breast"]⟩).1.timeouts =
      Sweep.SweepState.timeouts {} ++ [["c", "d", "s"]] ∧
    (∀ (v : Sweep.CancerEntry) (sst2 : Sweep.SweepState),
      (fun (_ : Sweep.CancerEntry) => TransportResult.timeout) v = .connError →
      (Sweep.sweepStep (fun _ => .timeout) sst2 v).2 =
        some .connectionError) :=
  recoverable_failures_contained_amended "res" false (fun _ => false)
    (fun _ => .timeout) {} ⟨"p", "20", "75001"⟩ {} ⟨"c", "d", "s", ["breast"]⟩
    (fun _ => .timeout) (fun _ => Or.inl rfl) (by decide) rfl

/-- C3 counterexample: with `--skip` set and the output file already
present, the unit is skipped (zero dispatches) yet `total_runs` still
counts it, so the exit summary's total-units-run figure (1) differs from
the number of dispatched units (0). -/
theorem loader_summary_counts_skipped_units :
    (Loader.loaderRun "res" false true ["p.json"] (fun _ => true)
      (fun _ => .timeout)).2 = none ∧
    (Loader.loaderRun "res" false true ["p.json"] (fun _ => true)
      (fun _ => .timeout)).1.totalRuns = 1 ∧
    (Loader.loaderRun "res" false true ["p.json"] (fun _ => true)
      (fun _ => .timeout)).1.dispatchLog.length = 0 ∧
    (1 : Nat) ≠ 0 := by decide

/-- C3 (amended): at end of a completed condition sweep, the total row
count across the status buckets plus the timeouts list equals the number
of dispatched units, which is the number of filtered entries.  In loader
mode the exit summary's `total_runs` counts every enumerated unit,
skipped ones included, so it equals the number of dispatched units only
when nothing is skipped (in particular whenever `--skip` is off). -/
theorem accumulator_count_invariant_amended
    (ct : String) (data : List Sweep.CancerEntry)
    (str : Sweep.CancerEntry → TransportResult) (sst : Sweep.SweepState)
    (rd : String) (ext skp : Bool) (records : List String)
    (ex0 : String → Bool) (tr : Loader.UnitId → TransportResult)
    (st : Loader.RunState)
    (hs : Sweep.sweepRun ct data str = (sst, none))
    (hl : Loader.loaderRun rd ext skp records ex0 tr = (st, none)) :
    (Sweep.bucketsSum sst.results + sst.timeouts.length =
       sst.dispatchLog.length ∧
     sst.dispatchLog.length =
       (data.filter (Sweep.filterCancerType ct)).length) ∧
    (st.totalRuns = (Loader.units ext records).length ∧
     st.dispatchLog.length ≤ st.totalRuns ∧
     (skp = false → st.dispatchLog.length = st.totalRuns)) := by
  refine ⟨Sweep.sweepRun_count ct data str sst hs, ?_, ?_, ?_⟩
  · have := Loader.runAux_totalRuns rd skp ex0 tr (Loader.units ext records) {} st hl
    simpa using this
  · have h1 := Loader.runAux_totalRuns rd skp ex0 tr (Loader.units ext records) {} st hl
    have h2 := Loader.runAux_dispatchLog_len_le rd skp ex0 tr
      (Loader.units ext records) {} st hl
    simp at h1 h2
    omega
  · intro hskp
    subst hskp
    have h1 := Loader.runAux_totalRuns rd false ex0 tr (Loader.units ext records) {} st hl
    have h2 := Loader.runAux_noskip_dispatchLog rd ex0 tr
      (Loader.units ext records) {} st hl
    rw [h2]
    simpa using h1.symm

/-- Witness for C3's amended theorem on a one-entry sweep and a
one-record narrow loader run, both with timeout transports. -/
theorem accumulator_count_invariant_witness :
    (Sweep.bucketsSum sweepWitnessState.results +
       sweepWitnessState.timeouts.length =
       sweepWitnessState.dispatchLog.length ∧
     sweepWitnessState.dispatchLog.length =
       ([⟨"c", "d", "s", ["breast"]⟩].filter
         (Sweep.filterCancerType "breast")).length) ∧
    (loaderWitnessState.totalRuns = (Loader.units false ["p.json"]).length ∧
     loaderWitnessState.dispatchLog.length ≤ loaderWitnessState.totalRuns ∧
     (false = false →
       loaderWitnessState.dispatchLog.length = loaderWitnessState.totalRuns)) :=
  accumulator_count_invariant_amended "breast" [⟨"c", "d", "s", ["breast"]⟩]
    (fun _ => .timeout) sweepWitnessState "res" false false ["p.json"]
    (fun _ => false) (fun _ => .timeout) loaderWitnessState
    (by decide) (by decide)

/-- C4 counterexample: in loader mode a success response whose body lacks
the `total` field makes `researchStudies["total"]` raise `KeyError`, which
escapes the engine and aborts the run instead of being treated as zero
matches. -/
theorem loader_absent_total_raises_keyerror :
    (Loader.loaderRun "res" false false ["p.json"] (fun _ => false)
      (fun _ => .response 200 ⟨none, []⟩)).2 = some .keyError := by decide

/-- C4 (amended): only condition-sweep mode treats an absent `total` field
as 0 (`... if "total" in researchStudies else 0`): the step raises nothing
and records a row with total 0.  Loader mode instead raises `KeyError` on
a 200 response without `total`. -/
theorem absent_total_defaults_to_zero_amended (status : Nat)
    (es : List String) (sst : Sweep.SweepState) (en : Sweep.CancerEntry) :
    (Sweep.sweepStep (fun _ => .response status ⟨none, es⟩) sst en).2 = none ∧
    (Sweep.sweepStep (fun _ => .response status ⟨none, es⟩) sst en).1.results =
      Sweep.insertResult sst.results status ⟨en.code, en.display, en.system, 0⟩ ∧
    Loader.classifyResponse 200 ⟨none, es⟩ = .error .keyError :=
  ⟨rfl, rfl, rfl⟩

set_option maxRecDepth 40000 in
/-- C5 counterexample: because broad mode's location list contains "26506"
twice, the unit (record "p", radius "20", zip "26506") is enumerated and
dispatched twice in one skip-disabled run, not exactly once. -/
theorem duplicate_zip_unit_dispatched_twice :
    (Loader.loaderRun "res" true false ["p.json"] (fun _ => false)
      (fun _ => .timeout)).1.dispatchLog.count ⟨"p", "20", "26506"⟩ = 2 ∧
    (2 : Nat) ≠ 1 := by decide

/-- C5 (amended): an iteration is skipped iff `--skip` is enabled and a
file exists at the deterministic output path at check time (and a skipped
iteration changes nothing but `total_runs`); a non-skipped iteration
dispatches its unit exactly once; with skip disabled nothing is ever
skipped and a completed run dispatches exactly the enumerated sequence —
so a unit identified by (record, combination) is dispatched once per
occurrence of its combination, which is twice for the repeated broad-mode
location "26506". -/
theorem skip_decision_amended (rd : String) (skp : Bool)
    (ex0 : String → Bool) (tr : Loader.UnitId → TransportResult)
    (st st' : Loader.RunState) (u : Loader.UnitId) (ext : Bool)
    (records : List String)
    (hskip : Loader.shouldSkip skp (Loader.fileExistsNow ex0 st
      (Loader.fileName rd u.record u.radius u.zipCode)) = true)
    (hdisp : Loader.shouldSkip skp (Loader.fileExistsNow ex0 st'
      (Loader.fileName rd u.record u.radius u.zipCode)) = false) :
    Loader.stepUnit rd skp ex0 tr st u =
      ({ st with totalRuns := st.totalRuns + 1 }, none) ∧
    (Loader.stepUnit rd skp ex0 tr st' u).1.dispatchLog =
      st'.dispatchLog ++ [u] ∧
    (∀ b, Loader.shouldSkip false b = false) ∧
    (∀ st2 st3 : Loader.RunState,
      Loader.runAux rd false ex0 tr (Loader.units ext records) st2 =
        (st3, none) →
      st3.dispatchLog = st2.dispatchLog ++ Loader.units ext records) :=
  ⟨Loader.stepUnit_skip rd skp ex0 tr st u hskip,
   Loader.stepUnit_dispatch rd skp ex0 tr st' u hdisp,
   fun _ => rfl,
   fun st2 st3 h =>
     Loader.runAux_noskip_dispatchLog rd ex0 tr (Loader.units ext records)
       st2 st3 h⟩

/-- Witness for C5's amended theorem: with `--skip` on, a state whose
files list already holds the output path skips the unit, while the empty
state dispatches it. -/
theorem skip_decision_witness :
    Loader.stepUnit "res" true (fun _ => false) (fun _ => .timeout)
      ⟨0, [], [("res/p_r20_z75001.csv", ["x"])], []⟩ ⟨"p", "20", "75001"⟩ =
      ({ (⟨0, [], [("res/p_r20_z75001.csv", ["x"])], []⟩ : Loader.RunState)
          with totalRuns := 0 + 1 }, none) ∧
    (Loader.stepUnit "res" true (fun _ => false) (fun _ => .timeout) {}
      ⟨"p", "20", "75001"⟩).1.dispatchLog =
      Loader.RunState.dispatchLog {} ++ [⟨"p", "20", "75001"⟩] ∧
    (∀ b, Loader.shouldSkip false b = false) ∧
    (∀ st2 st3 : Loader.RunState,
      Loader.runAux "res" false (fun _ => false) (fun _ => .timeout)
        (Loader.units false ["p.json"]) st2 = (st3, none) →
      st3.dispatchLog = st2.dispatchLog ++ Loader.units false ["p.json"]) :=
  skip_decision_amended "res" true (fun _ => false) (fun _ => .timeout)
    ⟨0, [], [("res/p_r20_z75001.csv", ["x"])], []⟩ {} ⟨"p", "20", "75001"⟩
    false ["p.json"] (by decide) (by decide)

/-- C6: on a 200 response, `total = 0` writes no CSV file for the unit,
while `total > 0` writes exactly one file at the deterministic path whose
rows are the response's identifier values, one per row in response order
(and single-column with no header, which is how `csv.writer` renders each
one-element row). -/
theorem csv_rows_match_entries (rd : String) (skp : Bool)
    (ex0 : String → Bool) (st : Loader.RunState) (u : Loader.UnitId)
    (body : Body) (n : Int)
    (hns : Loader.shouldSkip skp (Loader.fileExistsNow ex0 st
      (Loader.fileName rd u.record u.radius u.zipCode)) = false)
    (htot : body.total? = some n) :
    (n = 0 →
      Loader.stepUnit rd skp ex0 (fun _ => .response 200 body) st u =
        ({ st with totalRuns := st.totalRuns + 1,
                   dispatchLog := st.dispatchLog ++ [u] }, none)) ∧
    (0 < n →
      Loader.stepUnit rd skp ex0 (fun _ => .response 200 body) st u =
        ({ st with totalRuns := st.totalRuns + 1,
                   dispatchLog := st.dispatchLog ++ [u],
                   files := st.files ++
                     [(Loader.fileName rd u.record u.radius u.zipCode,
                       body.entries)] }, none)) := by
  constructor
  · intro hn
    simp only [Loader.stepUnit, Loader.classifyResponse]
    rw [if_neg (by simp [Loader.fileExistsNow] at hns ⊢; simp [hns])]
    simp [htot, hn]
  · intro hn
    simp only [Loader.stepUnit, Loader.classifyResponse]
    rw [if_neg (by simp [Loader.fileExistsNow] at hns ⊢; simp [hns])]
    simp [htot, hn]

/-- Witness for C6 at a concrete unit and a 200 response with `total = 3`
and three identifiers. -/
theorem csv_rows_match_entries_witness :
    Loader.stepUnit "res" false (fun _ => false)
      (fun _ => .response 200 ⟨some 3, ["a", "b", "c"]⟩) {}
      ⟨"p", "20", "75001"⟩ =
      ({ ({} : Loader.RunState) with
          totalRuns := Loader.RunState.totalRuns {} + 1,
          dispatchLog := Loader.RunState.dispatchLog {} ++
            [⟨"p", "20", "75001"⟩],
          files := Loader.RunState.files {} ++
            [(Loader.fileName "res" "p" "20" "75001",
              Body.entries ⟨some 3, ["a", "b", "c"]⟩)] }, none) :=
  (csv_rows_match_entries "res" false (fun _ => false) {}
    ⟨"p", "20", "75001"⟩ ⟨some 3, ["a", "b", "c"]⟩ 3 (by decide) rfl).2
    (by decide)

/-- C10 counterexample: when the directory flag (-d) is also missing,
line 107 of `test_cancer_types.py` runs `os.path.expanduser(None)`, which
raises `TypeError` before `path_to_cancer_types` is ever read, so the run
does not terminate with `UnboundLocalError` in that case. -/
theorem missing_directory_flag_raises_typeerror :
    Sweep.sweepMain none none [] "breast" (fun _ => .timeout) =
      ⟨some .typeError, false, {}⟩ ∧
    some PyException.typeError ≠ some PyException.unboundLocalError := by
  decide

/-- C10 (amended): with the cancer-types file flag absent but a directory
argument supplied, `main` raises `UnboundLocalError` when reading
`path_to_cancer_types` (the conditional local assignment shadows the
module-level default), before the usage message prints and before any
dispatch; when the directory flag is also absent, a `TypeError` from
`os.path.expanduser(None)` pre-empts it. -/
theorem missing_file_flag_unboundlocal (d : String)
    (data : List Sweep.CancerEntry) (ct : String)
    (str : Sweep.CancerEntry → TransportResult) :
    Sweep.sweepMain none (some d) data ct str =
      ⟨some .unboundLocalError, false, {}⟩ ∧
    (Sweep.sweepMain none (some d) data ct str).usagePrinted = false ∧
    (Sweep.sweepMain none (some d) data ct str).st.dispatchLog = [] ∧
    Sweep.sweepMain none none data ct str = ⟨some .typeError, false, {}⟩ :=
  ⟨rfl, rfl, rfl, rfl⟩
